import Mathlib

/-
Verification of the signal-generation and order-execution decision loop of the
solana-trading-bot repository, as a shallow embedding in Lean 4.

Sources embedded:
  - src/simple_bot.py   (3-indicator consensus bot): indicator functions,
    2-of-3 consensus, limit-then-market order execution, trading loop.
  - src/solana_bot.py   (RSI-only bot with profit protection): pandas-style
    RSI, rsi-cycle tracking, market-then-limit execution, trading loop.
  - src/app.py          (aggressive bot): the floor-to-0.1-lot sell path.

Modelling conventions:
  - Python floats are modelled as rationals.  The float value NaN, which the
    pandas code produces for short rolling windows and for a 0/0 ratio, is
    modelled as the none case of Option; every comparison against NaN is
    false in Python and is mapped to false here.  A division of a positive
    number by zero yields inf in pandas, and 100 - 100 / (1 + inf) evaluates
    to exactly 100; that branch is modelled explicitly.
  - Code paths on which the Python source raises an exception that is caught
    by the surrounding try/except and turned into a default return value are
    modelled by returning that default directly; each such branch carries a
    comment naming the exception.
  - Exchange I/O is modelled by environment records: the values a tick reads
    from the exchange (balances, ticker price, candle data, order responses).
    A missing/failed fetch is the none case.  An order response is a record
    with a hasError flag (the Python code tests for an error key in the
    response dict) and a filled flag, which the Python code never reads.
  - Wall-clock fields of the trading state (timestamps) and display-only
    derived statistics are outside the embedding; the is_running cancellation
    flag is true throughout a modelled tick, since the loop body only runs
    while the flag is set.
-/

set_option maxRecDepth 8000

/-- Side of an order request sent to the exchange. -/
inductive Side where
  | buy
  | sell
deriving DecidableEq

/-- Order type field of an order request (orderType in the source). -/
inductive OType where
  | market
  | limit
deriving DecidableEq

/-- Order request as built by the execute functions: side, orderType,
quantity, and the limit price when orderType is limit. -/
structure OrderReq where
  side : Side
  otype : OType
  quantity : ℚ
  price : Option ℚ
deriving DecidableEq

/-- Response of the exchange to an order placement.  The source code only
tests whether the response dict contains an error key; the filled flag is
present in the exchange schema but never inspected by the source. -/
structure OrderResponse where
  hasError : Bool
  filled : Bool
deriving DecidableEq

/-- Position label stored in trading_state.last_position (the Python code
uses the strings long and short, with None for no position). -/
inductive Pos where
  | long
  | short
deriving DecidableEq

/-- Round-half-to-even on a rational, the rounding mode of the Python
built-in round applied to a float (modelled over exact rationals). -/
def rhe (x : ℚ) : ℤ :=
  let f := Int.floor x
  if x - f < 1/2 then f
  else if 1/2 < x - f then f + 1
  else if f % 2 = 0 then f else f + 1

/-- Python round(x, d): round half to even at the d-th decimal place. -/
def pyRound (x : ℚ) (d : ℕ) : ℚ :=
  (rhe (x * 10 ^ d) : ℚ) / 10 ^ d

/-- Python slice l[k:] for an integer k (negative k counts from the end). -/
def pySliceFrom (l : List ℚ) (k : ℤ) : List ℚ :=
  if k < 0 then l.drop (l.length - (-k).toNat) else l.drop k.toNat

/-- Python slice l[-k:] where k is a nonnegative count; for k = 0 the slice
l[-0:] is the whole list. -/
def pyTail (k : ℕ) (l : List ℚ) : List ℚ :=
  if k = 0 then l else l.drop (l.length - k)

/-- Consecutive differences of a list (the pandas diff without its leading
NaN entry): diffs [a, b, c] = [b - a, c - b]. -/
def diffs (l : List ℚ) : List ℚ :=
  List.zipWith (fun b a => b - a) l.tail l

namespace SimpleBot

/-- Candle data as returned by get_klines_simple in src/simple_bot.py: the
lists of close, high and low prices.  When every candle row parses uniformly
the three lists have equal length; an index error on ragged data falls into
the except handler of each indicator, which returns 0. -/
structure Klines where
  closes : List ℚ
  highs : List ℚ
  lows : List ℚ
deriving DecidableEq

/-- True-range list of calculate_supertrend_simple: for each i from 1, the
maximum of high-low, abs (high - previous close), abs (low - previous close).
Pairing the tails of highs and lows against closes aligns index i with the
previous close at index i-1, matching the Python loop for equal-length
lists. -/
def trList (highs lows closes : List ℚ) : List ℚ :=
  List.zipWith (fun hl c => max (hl.1 - hl.2) (max |hl.1 - c| |hl.2 - c|))
    (highs.tail.zip lows.tail) closes

/-- Embedding of calculate_supertrend_simple (src/simple_bot.py lines
172-213).  Slices the last 2*period entries, returns 0 when fewer than
period closes remain, otherwise compares the last close against an
ATR-scaled band around the midprice of the last candle.  Branches on which
the Python source raises (division by a zero period, indexing an empty
list) return 0 through the except handler and are modelled as 0. -/
def calculate_supertrend_simple (data : Klines) (period : ℕ) (multiplier : ℚ) : ℚ :=
  let highs := pyTail (2 * period) data.highs
  let lows := pyTail (2 * period) data.lows
  let closes := pyTail (2 * period) data.closes
  if closes.length < period then 0
  else
    let tr_values := trList highs lows closes
    match highs.getLast?, lows.getLast?, closes.getLast? with
    | some ch, some cl, some cc =>
      if ¬tr_values = [] ∧ period = 0 then 0
      else
        let atr := if tr_values = [] then 0
          else (tr_values.drop (tr_values.length - period)).sum / period
        let hl_avg := (ch + cl) / 2
        if hl_avg + multiplier * atr < cc then 1
        else if cc < hl_avg - multiplier * atr then -1
        else 0
    | _, _, _ => 0

/-- Embedding of the nested calculate_ema of calculate_macd_simple
(src/simple_bot.py lines 224-234): seed with the price at index -period and
fold the smoothing update over the slice from index -period+1 on. -/
def calculate_ema (prices : List ℚ) (period : ℕ) : ℚ :=
  if prices.length < period then
    match prices.getLast? with
    | some x => x
    | none => 0
  else
    let init := (pySliceFrom prices (-(period : ℤ))).headD 0
    (pySliceFrom prices (1 - (period : ℤ))).foldl
      (fun e price => (price - e) * (2 / ((period : ℚ) + 1)) + e) init

/-- Embedding of calculate_macd_simple (src/simple_bot.py lines 215-258):
returns 0 for fewer than slow closes, otherwise 1 when the MACD line is
above the averaged recent-MACD signal line and -1 otherwise. -/
def calculate_macd_simple (data : Klines) (fast slow signal : ℕ) : ℚ :=
  let closes := data.closes
  if closes.length < slow then 0
  else
    let macd_line := calculate_ema closes fast - calculate_ema closes slow
    let recent_macds := (List.range (min signal closes.length)).map (fun i =>
      (if i + 1 < closes.length then calculate_ema (closes.take (closes.length - (i + 1))) fast else 0)
      - (if i + 1 < closes.length then calculate_ema (closes.take (closes.length - (i + 1))) slow else 0))
    let signal_line := if recent_macds = [] then macd_line
      else recent_macds.sum / recent_macds.length
    if signal_line < macd_line then 1 else -1

/-- Embedding of calculate_rsi_simple (src/simple_bot.py lines 260-299):
returns 0 when closes has at most period entries; otherwise averages the
last period gains and losses and maps the RSI value to a signal in
{-1, 0, 1}.  With a zero average loss the code returns 1 when the average
gain is positive and 0 otherwise, without computing an RSI value.  For
period = 0 the Python division raises ZeroDivisionError and the except
handler returns 0, which coincides with the value of this branch-free
model at period = 0. -/
def calculate_rsi_simple (data : Klines) (period : ℕ) : ℚ :=
  let closes := data.closes
  if closes.length ≤ period then 0
  else
    let gains := (diffs closes).map (fun d => if 0 < d then d else 0)
    let losses := (diffs closes).map (fun d => if 0 < d then 0 else -d)
    let avg_gain := (gains.drop (gains.length - period)).sum / period
    let avg_loss := (losses.drop (losses.length - period)).sum / period
    if avg_loss = 0 then (if 0 < avg_gain then 1 else 0)
    else
      let rsi := 100 - 100 / (1 + avg_gain / avg_loss)
      if 70 < rsi then -1 else if rsi < 30 then 1 else 0

/-- Consensus decision of get_trading_signals (src/simple_bot.py lines
348-357). -/
inductive SConsensus where
  | BUY
  | SELL
  | NEUTRAL
deriving DecidableEq

/-- Embedding of the 2-of-3 vote count of get_trading_signals
(src/simple_bot.py lines 348-357): count readings equal to 1 as buy votes
and readings equal to -1 as sell votes; two buy votes give BUY, two sell
votes give SELL, anything else is NEUTRAL. -/
def consensusOf (st macd rsi : ℚ) : SConsensus :=
  let buy_votes := [st, macd, rsi].count 1
  let sell_votes := [st, macd, rsi].count (-1)
  if 2 ≤ buy_votes then SConsensus.BUY
  else if 2 ≤ sell_votes then SConsensus.SELL
  else SConsensus.NEUTRAL

/-- Configuration fields of src/simple_bot.py used by the core loop. -/
structure SConfig where
  trade_percentage : ℚ := 50
deriving DecidableEq

/-- Exchange values read by execute_buy_order of src/simple_bot.py during
one call: the refetched balances, the ticker price (none when the request
fails, the price field is missing, or it is falsy), and the responses to
the limit attempt and to the market retry. -/
structure SBuyEnv where
  sol_bal : ℚ := 0
  usdt_bal : ℚ := 0
  ticker_price : Option ℚ := none
  limitResp : OrderResponse := ⟨true, false⟩
  marketResp : OrderResponse := ⟨true, false⟩
deriving DecidableEq

/-- Embedding of execute_buy_order (src/simple_bot.py lines 361-453).
Returns the success flag together with the list of order requests sent.
The function sizes the buy as a percentage of the USDT balance, rejects
below 0.1 SOL or 15 USDT notional, then attempts a LIMIT order 0.5 percent
above market and, only if that response carries an error, retries once with
a MARKET order.  A zero price makes the Python division raise and the
except handler return False. -/
def simpleExecuteBuy (cfg : SConfig) (env : SBuyEnv) : Bool × List OrderReq :=
  if env.usdt_bal ≤ 0 then (false, [])
  else
    let buy_amount_usdt := env.usdt_bal * (cfg.trade_percentage / 100)
    match env.ticker_price with
    | none => (false, [])
    | some price =>
      if price = 0 then (false, [])
      else
        let sol_amount := buy_amount_usdt / price
        if sol_amount < 1/10 then (false, [])
        else
          let notional_value := sol_amount * price
          if notional_value < 15 then (false, [])
          else
            let limit_price := pyRound (price * (1005/1000)) 2
            let q := pyRound sol_amount 4
            let lo : OrderReq := ⟨Side.buy, OType.limit, q, some limit_price⟩
            if env.limitResp.hasError = false then (true, [lo])
            else
              let mo : OrderReq := ⟨Side.buy, OType.market, q, none⟩
              if env.marketResp.hasError = false then (true, [lo, mo])
              else (false, [lo, mo])

/-- Exchange values read by execute_sell_order of src/simple_bot.py. -/
structure SSellEnv where
  sol_bal : ℚ := 0
  usdt_bal : ℚ := 0
  ticker_price : Option ℚ := none
  limitResp : OrderResponse := ⟨true, false⟩
  marketResp : OrderResponse := ⟨true, false⟩
deriving DecidableEq

/-- Embedding of execute_sell_order (src/simple_bot.py lines 455-544).
Always sells 100 percent of the SOL balance; rejects below 0.1 SOL (before
fetching the price) or below 15 USDT notional; attempts a LIMIT order 0.5
percent below market first and retries once with a MARKET order. -/
def simpleExecuteSell (cfg : SConfig) (env : SSellEnv) : Bool × List OrderReq :=
  if env.sol_bal ≤ 0 then (false, [])
  else
    let sol_amount := env.sol_bal
    if sol_amount < 1/10 then (false, [])
    else
      match env.ticker_price with
      | none => (false, [])
      | some price =>
        let limit_price := pyRound (price * (995/1000)) 2
        let notional_value := sol_amount * price
        if notional_value < 15 then (false, [])
        else
          let q := pyRound sol_amount 4
          let lo : OrderReq := ⟨Side.sell, OType.limit, q, some limit_price⟩
          if env.limitResp.hasError = false then (true, [lo])
          else
            let mo : OrderReq := ⟨Side.sell, OType.market, q, none⟩
            if env.marketResp.hasError = false then (true, [lo, mo])
            else (false, [lo, mo])

/-- Trade record appended to trading_state.trade_history by the loop of
src/simple_bot.py (modelled fields; wall-clock time and the signal snapshot
are outside the embedding). -/
structure STrade where
  action : SConsensus
  sol_amount : ℚ
  usdt_amount : ℚ
  price : ℚ
deriving DecidableEq

/-- Mutable trading state of src/simple_bot.py touched by the loop. -/
structure SState where
  last_position : Option Pos := none
  trade_history : List STrade := []
  current_sol_balance : ℚ := 0
  current_usdt_balance : ℚ := 0
deriving DecidableEq

/-- Exchange values read during one tick of the trading_loop of
src/simple_bot.py: the candle data (none when get_klines_simple fails), the
balances of the display fetch, and the environments of the two execute
functions. -/
structure STickEnv where
  data : Option Klines := none
  disp_sol : ℚ := 0
  disp_usdt : ℚ := 0
  buyEnv : SBuyEnv := {}
  sellEnv : SSellEnv := {}
deriving DecidableEq

/-- Embedding of one tick of trading_loop (src/simple_bot.py lines
557-643).  A failed or empty candle fetch skips the tick without touching
the state.  Otherwise the three indicator readings and their consensus are
computed, balances are refreshed, and a BUY or SELL is executed subject to
the position label; the position label and trade history are updated only
when the execute function reports success. -/
def simpleTick (cfg : SConfig) (s : SState) (env : STickEnv) : SState :=
  match env.data with
  | none => s
  | some data =>
    if data.closes = [] then s
    else
      let st := calculate_supertrend_simple data 10 3
      let mac := calculate_macd_simple data 12 26 9
      let rsi := calculate_rsi_simple data 14
      let cons := consensusOf st mac rsi
      let price := data.closes.getLast?.getD 0
      let s1 := { s with current_sol_balance := env.disp_sol,
                         current_usdt_balance := env.disp_usdt }
      if cons = SConsensus.BUY ∧ ¬s1.last_position = some Pos.long then
        let r := simpleExecuteBuy cfg env.buyEnv
        let s2 := { s1 with current_sol_balance := env.buyEnv.sol_bal,
                            current_usdt_balance := env.buyEnv.usdt_bal }
        if r.1 then
          { s2 with last_position := some Pos.long,
                    trade_history := s2.trade_history ++
                      [⟨SConsensus.BUY, env.disp_sol,
                        env.disp_usdt * (cfg.trade_percentage / 100), price⟩] }
        else s2
      else if cons = SConsensus.SELL ∧ ¬s1.last_position = some Pos.short then
        let r := simpleExecuteSell cfg env.sellEnv
        let s2 := { s1 with current_sol_balance := env.sellEnv.sol_bal,
                            current_usdt_balance := env.sellEnv.usdt_bal }
        if r.1 then
          { s2 with last_position := some Pos.short,
                    trade_history := s2.trade_history ++
                      [⟨SConsensus.SELL, env.disp_sol, env.disp_sol * price, price⟩] }
        else s2
      else s1

end SimpleBot

namespace SolanaBot

/-- Comparison of an optional RSI value (none models the float NaN) against
a threshold; every comparison against NaN is false in Python. -/
def optGTb (x : Option ℚ) (c : ℚ) : Bool :=
  match x with
  | some v => decide (c < v)
  | none => false

/-- Less-than comparison of an optional RSI value against a threshold. -/
def optLTb (x : Option ℚ) (c : ℚ) : Bool :=
  match x with
  | some v => decide (v < c)
  | none => false

/-- At-most comparison of an optional RSI value against a threshold. -/
def optLEb (x : Option ℚ) (c : ℚ) : Bool :=
  match x with
  | some v => decide (v ≤ c)
  | none => false

/-- At-least comparison of an optional RSI value against a threshold. -/
def optGEb (x : Option ℚ) (c : ℚ) : Bool :=
  match x with
  | some v => decide (c ≤ v)
  | none => false

/-- Gain series of calculate_rsi (src/solana_bot.py lines 345-348): the
pandas diff has a leading NaN which delta.where(delta greater 0, 0) turns
into 0, so the series starts with 0 followed by the clipped differences. -/
def pandasGains (closes : List ℚ) : List ℚ :=
  match closes with
  | [] => []
  | _ :: _ => 0 :: (diffs closes).map (fun d => if 0 < d then d else 0)

/-- Loss series of calculate_rsi (src/solana_bot.py line 349): negated
differences clipped at 0, with the leading NaN mapped to 0 as above. -/
def pandasLosses (closes : List ℚ) : List ℚ :=
  match closes with
  | [] => []
  | _ :: _ => 0 :: (diffs closes).map (fun d => if d < 0 then -d else 0)

/-- Last entry of a pandas rolling(window).mean() series: none (NaN) when
the series is shorter than the window or the window is degenerate,
otherwise the mean of the last window entries. -/
def rollingMeanLast (l : List ℚ) (p : ℕ) : Option ℚ :=
  if p = 0 ∨ l.length < p then none
  else some ((l.drop (l.length - p)).sum / p)

/-- RSI value from the average gain and average loss (src/solana_bot.py
lines 356-357).  pandas evaluates avg_gain / avg_loss with avg_loss = 0 to
inf when avg_gain is positive, and then 100 - 100 / (1 + inf) is exactly
100; with both averages 0 the ratio is NaN (none here). -/
def rsiFromAvgs : Option ℚ → Option ℚ → Option ℚ
  | some ag, some al =>
    if al = 0 then (if ag = 0 then none else some 100)
    else some (100 - 100 / (1 + ag / al))
  | _, _ => none

/-- Embedding of calculate_rsi (src/solana_bot.py lines 339-383): returns
the signal together with the current RSI value.  An empty close series
makes iloc[-1] raise and a zero period makes rolling raise; both fall into
the except handler which returns (0, 50).  The previous RSI value is the
one at index -2, obtained from the series without its last entry. -/
def calculate_rsi (closes : List ℚ) (period : ℕ) (oversold overbought : ℚ) : ℚ × Option ℚ :=
  if closes = [] ∨ period = 0 then (0, some 50)
  else
    let g := pandasGains closes
    let lo := pandasLosses closes
    let cur := rsiFromAvgs (rollingMeanLast g period) (rollingMeanLast lo period)
    let prev :=
      if 1 < closes.length then
        rsiFromAvgs (rollingMeanLast g.dropLast period) (rollingMeanLast lo.dropLast period)
      else cur
    let signal : ℚ :=
      if optLEb cur oversold && optGTb prev oversold then 1
      else if optGEb cur overbought && optLTb prev overbought then -1
      else if optLTb cur oversold then 1/2
      else if optGTb cur overbought then -1/2
      else 0
    (signal, cur)

/-- Configuration fields of src/solana_bot.py used by the core loop, with
the defaults of the Config class (lines 38-48); percentage_mode models
trade_type == percentage. -/
structure Config where
  percentage_mode : Bool := true
  trade_percentage : ℚ := 50
  sol_trade_amount : ℚ := 1
  rsi_period : ℕ := 14
  rsi_oversold : ℚ := 30
  rsi_overbought : ℚ := 70
  profit_target_percent : ℚ := 1
  require_rsi_cycle : Bool := true
deriving DecidableEq

/-- Consensus labels produced by get_trading_signals (src/solana_bot.py
lines 458-470). -/
inductive Consensus where
  | BUY
  | PROFIT_SELL
  | RSI_SELL
  | WEAK_BUY
  | WEAK_SELL
  | NEUTRAL
deriving DecidableEq

/-- Trade record appended to trading_state.trade_history by trading_loop of
src/solana_bot.py (modelled fields). -/
structure TradeRecord where
  action : Consensus
  sol_amount : ℚ
  usdt_amount : ℚ
  price : ℚ
deriving DecidableEq

/-- Mutable trading state of src/solana_bot.py touched by the core loop
(TradingState, lines 57-75).  last_rsi_value holds an optional rational
because the stored RSI value can be the float NaN. -/
structure State where
  last_position : Option Pos := none
  last_buy_price : Option ℚ := none
  rsi_cycle_complete : Bool := true
  last_rsi_value : Option ℚ := some 50
  trade_history : List TradeRecord := []
  current_sol_balance : ℚ := 0
  current_usdt_balance : ℚ := 0
deriving DecidableEq

/-- Signals dict built by get_trading_signals (src/solana_bot.py lines
440-470), without the wall-clock timestamp and interval fields. -/
structure Signals where
  rsi_signal : ℚ
  rsi_value : Option ℚ
  price : ℚ
  profit_percent : ℚ
  profit_target_reached : Bool
  consensus : Consensus
deriving DecidableEq

/-- RSI-cycle tracking block of get_trading_signals (src/solana_bot.py
lines 428-438): in a long position the cycle flag is set once the stored
RSI value was above overbought and the current one is below oversold;
outside a position the flag is reset to true; the stored RSI value is then
always overwritten with the current one. -/
def rsiCycleUpdate (cfg : Config) (s : State) (curRsi : Option ℚ) : State :=
  if cfg.require_rsi_cycle then
    let s1 :=
      if s.last_position = some Pos.long then
        (if optGTb s.last_rsi_value cfg.rsi_overbought && optLTb curRsi cfg.rsi_oversold
         then { s with rsi_cycle_complete := true } else s)
      else { s with rsi_cycle_complete := true }
    { s1 with last_rsi_value := curRsi }
  else s

/-- Profit block of get_trading_signals (src/solana_bot.py lines 449-456):
when long with a truthy last buy price, the profit percentage relative to
that price and whether it reaches the configured target. -/
def profitInfo (cfg : Config) (s : State) (price : ℚ) : ℚ × Bool :=
  match s.last_buy_price with
  | some lbp =>
    if s.last_position = some Pos.long ∧ ¬lbp = 0 then
      let pp := ((price - lbp) / lbp) * 100
      (pp, decide (cfg.profit_target_percent ≤ pp))
    else (0, false)
  | none => (0, false)

/-- Consensus cascade of get_trading_signals (src/solana_bot.py lines
459-470), evaluated after the cycle flag has been updated. -/
def consensusFor (cfg : Config) (rsiSig : ℚ) (cycle : Bool) (target : Bool) : Consensus :=
  if rsiSig = 1 ∧ (cycle = true ∨ cfg.require_rsi_cycle = false) then Consensus.BUY
  else if target = true then Consensus.PROFIT_SELL
  else if rsiSig = -1 then Consensus.RSI_SELL
  else if rsiSig = 1/2 ∧ (cycle = true ∨ cfg.require_rsi_cycle = false) then Consensus.WEAK_BUY
  else if rsiSig = -1/2 then Consensus.WEAK_SELL
  else Consensus.NEUTRAL

/-- Embedding of get_trading_signals (src/solana_bot.py lines 417-472).
The argument df is the close-price series of the fetched candles, none
when the fetch failed; fewer than 50 candles also yield no signals.  The
function both returns the signals and mutates the rsi-cycle tracking
fields of the trading state. -/
def getTradingSignals (cfg : Config) (s : State) (df : Option (List ℚ)) :
    State × Option Signals :=
  match df with
  | none => (s, none)
  | some closes =>
    if closes.length < 50 then (s, none)
    else
      let pr := calculate_rsi closes cfg.rsi_period cfg.rsi_oversold cfg.rsi_overbought
      let s1 := rsiCycleUpdate cfg s pr.2
      let price := closes.getLast?.getD 0
      let pi := profitInfo cfg s1 price
      (s1, some { rsi_signal := pr.1, rsi_value := pr.2, price := price,
                  profit_percent := pi.1, profit_target_reached := pi.2,
                  consensus := consensusFor cfg pr.1 s1.rsi_cycle_complete pi.2 })

/-- Exchange values read by execute_buy_order of src/solana_bot.py during
one call: refetched balances, ticker price (none when the request fails or
no price field parses), the responses to the market attempt and the limit
retry, and the balances refetched after a success. -/
structure BuyEnv where
  sol_bal : ℚ := 0
  usdt_bal : ℚ := 0
  ticker_price : Option ℚ := none
  marketResp : OrderResponse := ⟨true, false⟩
  limitResp : OrderResponse := ⟨true, false⟩
  post_sol : ℚ := 0
  post_usdt : ℚ := 0
deriving DecidableEq

/-- Result of an execute function of src/solana_bot.py: the trading state
after the call, the returned tuple (sol amount, usdt amount, price) with
none for a False return, and the order requests sent to the exchange. -/
structure ExecResult where
  state : State
  res : Option (ℚ × ℚ × ℚ)
  orders : List OrderReq
deriving DecidableEq

/-- Embedding of execute_buy_order (src/solana_bot.py lines 474-583).
Sizes the buy from the configuration (percentage of USDT or fixed amount),
rejects on insufficient USDT or a rounded quantity below 0.01 SOL, sends a
MARKET order and, only if that response carries an error, retries once with
a LIMIT order 0.5 percent above market.  A success stores the buy price and
clears the rsi-cycle flag; the response is treated as a success whenever it
carries no error key, without inspecting its filled flag.  In percentage
mode a zero price makes the Python division raise and the except handler
return False. -/
def executeBuyOrder (cfg : Config) (s : State) (env : BuyEnv) : ExecResult :=
  let s0 := { s with current_sol_balance := env.sol_bal,
                     current_usdt_balance := env.usdt_bal }
  match env.ticker_price with
  | none => ⟨s0, none, []⟩
  | some price =>
    if cfg.percentage_mode = true ∧ price = 0 then ⟨s0, none, []⟩
    else
      let usdt_to_spend := if cfg.percentage_mode then
          env.usdt_bal * (cfg.trade_percentage / 100)
        else cfg.sol_trade_amount * price
      let sol_amount := if cfg.percentage_mode then
          env.usdt_bal * (cfg.trade_percentage / 100) / price
        else cfg.sol_trade_amount
      if env.usdt_bal < usdt_to_spend then ⟨s0, none, []⟩
      else
        let q := pyRound sol_amount 4
        if q < 1/100 then ⟨s0, none, []⟩
        else
          let mo : OrderReq := ⟨Side.buy, OType.market, q, none⟩
          let success : State :=
            let sa := { s0 with last_buy_price := some price }
            let sb := if cfg.require_rsi_cycle then
                { sa with rsi_cycle_complete := false } else sa
            { sb with current_sol_balance := env.post_sol,
                      current_usdt_balance := env.post_usdt }
          if env.marketResp.hasError = false then
            ⟨success, some (q, usdt_to_spend, price), [mo]⟩
          else
            let limit_price := pyRound (price * (1005/1000)) 2
            let lo : OrderReq := ⟨Side.buy, OType.limit, q, some limit_price⟩
            if env.limitResp.hasError = false then
              ⟨success, some (q, usdt_to_spend, price), [mo, lo]⟩
            else ⟨s0, none, [mo, lo]⟩

/-- Exchange values read by execute_sell_order of src/solana_bot.py. -/
structure SellEnv where
  sol_bal : ℚ := 0
  usdt_bal : ℚ := 0
  ticker_price : Option ℚ := none
  marketResp : OrderResponse := ⟨true, false⟩
  limitResp : OrderResponse := ⟨true, false⟩
  post_sol : ℚ := 0
  post_usdt : ℚ := 0
deriving DecidableEq

/-- Embedding of execute_sell_order (src/solana_bot.py lines 585-692).
Always sells 100 percent of the SOL balance; the insufficiency comparison
of the source compares the balance against itself and never fires; rejects
on a rounded quantity below 0.01 SOL before fetching the price; sends a
MARKET order and on an error response retries once with a LIMIT order 0.5
percent below market.  A success clears the stored buy price. -/
def executeSellOrder (cfg : Config) (s : State) (env : SellEnv) : ExecResult :=
  let s0 := { s with current_sol_balance := env.sol_bal,
                     current_usdt_balance := env.usdt_bal }
  if env.sol_bal < env.sol_bal then ⟨s0, none, []⟩
  else
    let q := pyRound env.sol_bal 4
    if q < 1/100 then ⟨s0, none, []⟩
    else
      match env.ticker_price with
      | none => ⟨s0, none, []⟩
      | some price =>
        let expected_usdt := q * price
        let mo : OrderReq := ⟨Side.sell, OType.market, q, none⟩
        let success : State :=
          { s0 with last_buy_price := none,
                    current_sol_balance := env.post_sol,
                    current_usdt_balance := env.post_usdt }
        if env.marketResp.hasError = false then
          ⟨success, some (q, expected_usdt, price), [mo]⟩
        else
          let limit_price := pyRound (price * (995/1000)) 2
          let lo : OrderReq := ⟨Side.sell, OType.limit, q, some limit_price⟩
          if env.limitResp.hasError = false then
            ⟨success, some (q, expected_usdt, price), [mo, lo]⟩
          else ⟨s0, none, [mo, lo]⟩

/-- Exchange values read during one tick of trading_loop of
src/solana_bot.py: the close-price series of the candle fetch (none when
unavailable), the balances of the display fetch, and the environments of
the two execute functions. -/
structure TickEnv where
  df : Option (List ℚ) := none
  loop_sol : ℚ := 0
  loop_usdt : ℚ := 0
  buyEnv : BuyEnv := {}
  sellEnv : SellEnv := {}
deriving DecidableEq

/-- Embedding of one tick of trading_loop (src/solana_bot.py lines
710-867).  A tick without signals changes nothing beyond what
get_trading_signals itself wrote.  Otherwise balances are refreshed and one
of the BUY, PROFIT_SELL or RSI_SELL branches runs; the RSI_SELL branch is
skipped when no truthy buy price is recorded or when selling would realize
a loss.  The position label and trade history are updated only when the
execute function reports success. -/
def solanaTick (cfg : Config) (s : State) (env : TickEnv) : State :=
  match getTradingSignals cfg s env.df with
  | (s1, none) => s1
  | (s1, some sig) =>
    let s2 := { s1 with current_sol_balance := env.loop_sol,
                        current_usdt_balance := env.loop_usdt }
    if sig.consensus = Consensus.BUY ∧ ¬s2.last_position = some Pos.long then
      let r := executeBuyOrder cfg s2 env.buyEnv
      match r.res with
      | some qup =>
        { r.state with last_position := some Pos.long,
                       trade_history := r.state.trade_history ++
                         [⟨Consensus.BUY, qup.1, qup.2.1, qup.2.2⟩] }
      | none => r.state
    else if sig.consensus = Consensus.PROFIT_SELL ∧ s2.last_position = some Pos.long then
      let r := executeSellOrder cfg s2 env.sellEnv
      match r.res with
      | some qup =>
        { r.state with last_position := some Pos.short,
                       trade_history := r.state.trade_history ++
                         [⟨Consensus.PROFIT_SELL, qup.1, qup.2.1, qup.2.2⟩] }
      | none => r.state
    else if sig.consensus = Consensus.RSI_SELL ∧ s2.last_position = some Pos.long then
      match s2.last_buy_price with
      | some lbp =>
        if ¬lbp = 0 then
          let profit_percent := ((sig.price - lbp) / lbp) * 100
          if profit_percent < 0 then s2
          else
            let r := executeSellOrder cfg s2 env.sellEnv
            match r.res with
            | some qup =>
              { r.state with last_position := some Pos.short,
                             trade_history := r.state.trade_history ++
                               [⟨Consensus.RSI_SELL, qup.1, qup.2.1, qup.2.2⟩] }
            | none => r.state
        else s2
      | none => s2
    else s2

end SolanaBot

namespace AppBot

/-- Exchange values read by execute_sell_order of src/app.py: balances, the
requested amount (the base trade amount scaled by the signal multiplier in
the caller), the current price (none when unavailable), and the two order
responses. -/
structure ASellEnv where
  sol_bal : ℚ := 0
  usdt_bal : ℚ := 0
  amount : ℚ := 1/5
  price : Option ℚ := none
  marketResp : OrderResponse := ⟨true, false⟩
  limitResp : OrderResponse := ⟨true, false⟩
deriving DecidableEq

/-- Embedding of execute_sell_order (src/app.py lines 544-634).  Requires
at least 90 percent of the requested amount to be available, floors the
whole balance to the 0.1 lot granularity, rejects below 0.1 SOL, then sends
a MARKET order with a LIMIT retry 0.5 percent below market. -/
def appExecuteSell (env : ASellEnv) : Bool × List OrderReq :=
  let minimum_needed := env.amount * (9/10)
  if env.sol_bal < minimum_needed then (false, [])
  else
    let q := ((Int.floor (env.sol_bal * 10) : ℤ) : ℚ) / 10
    if q < 1/10 then (false, [])
    else
      match env.price with
      | none => (false, [])
      | some price =>
        let mo : OrderReq := ⟨Side.sell, OType.market, q, none⟩
        if env.marketResp.hasError = false then (true, [mo])
        else
          let limit_price := pyRound (price * (995/1000)) 2
          let lo : OrderReq := ⟨Side.sell, OType.limit, q, some limit_price⟩
          if env.limitResp.hasError = false then (true, [mo, lo])
          else (false, [mo, lo])

end AppBot

/-- Close series of 50 candles whose RSI crosses below the oversold level on
the last candle: a flat prefix, fourteen unit gains, then a drop of 50. -/
def c1Closes : List ℚ :=
  List.replicate 35 50 ++ [51, 52, 53, 54, 55, 56, 57, 58, 59, 60, 61, 62, 63, 64] ++ [14]

/-- Tick environment of a BUY tick whose market order response carries no
error key but reports filled = false. -/
def c1Env : SolanaBot.TickEnv :=
  { df := some c1Closes,
    buyEnv := { usdt_bal := 1000, ticker_price := some 100,
                marketResp := { hasError := false, filled := false } } }

/-- Strictly rising close series of 50 candles. -/
def c9Closes : List ℚ :=
  (List.range 50).map (fun i => (i : ℚ))

/-- Close series of 50 candles whose RSI crosses above the overbought level
on the last candle: previous window mixed, current window only gains. -/
def c10Closes : List ℚ :=
  List.replicate 35 50 ++ [49, 50, 51] ++ List.replicate 11 51 ++ [52]

/-- Long position with a recorded buy price of 60, above the tick price of
the c10Closes series. -/
def c10State : SolanaBot.State :=
  { last_position := some Pos.long, last_buy_price := some 60 }

/-- Tick environment delivering the c10Closes series. -/
def c10Env : SolanaBot.TickEnv :=
  { df := some c10Closes }

/-- Signals computed by get_trading_signals on the c10Closes series from
c10State: a strong-sell crossing with RSI value 100 at a loss relative to
the recorded buy price. -/
def c10Sig : SolanaBot.Signals :=
  { rsi_signal := -1, rsi_value := some 100, price := 52,
    profit_percent := (52 - 60) / 60 * 100, profit_target_reached := false,
    consensus := SolanaBot.Consensus.RSI_SELL }

section Helpers

/-- A list cannot contain more occurrences of 1 and of -1 together than it
has entries. -/
theorem count_one_add_count_neg_one_le (l : List ℚ) :
    l.count 1 + l.count (-1) ≤ l.length := by
  induction l with
  | nil => simp
  | cons x t ih =>
    simp only [List.count_cons, List.length_cons]
    split_ifs with h1 h2 <;> try omega
    exfalso
    rw [beq_iff_eq] at h1 h2
    subst h1
    norm_num at h2

end Helpers

/-- C2: the combined consensus of the three indicator readings is BUY iff at
least two readings equal 1, SELL iff at least two readings equal -1, and
NEUTRAL otherwise; weak readings 1/2 and -1/2 contribute to neither vote
total (replacing one by 0 leaves the consensus unchanged); in particular two
readings of 1 and one of 0 yield BUY, and readings 1, -1, 0 yield
NEUTRAL. -/
theorem consensus_majority_rule :
    (∀ a b c : ℚ, SimpleBot.consensusOf a b c = SimpleBot.SConsensus.BUY ↔
      2 ≤ [a, b, c].count 1) ∧
    (∀ a b c : ℚ, SimpleBot.consensusOf a b c = SimpleBot.SConsensus.SELL ↔
      2 ≤ [a, b, c].count (-1)) ∧
    (∀ a b c : ℚ, SimpleBot.consensusOf a b c = SimpleBot.SConsensus.NEUTRAL ↔
      ([a, b, c].count 1 < 2 ∧ [a, b, c].count (-1) < 2)) ∧
    (∀ a b w : ℚ, (w = 1/2 ∨ w = -1/2) →
      SimpleBot.consensusOf a b w = SimpleBot.consensusOf a b 0 ∧
      SimpleBot.consensusOf a w b = SimpleBot.consensusOf a 0 b ∧
      SimpleBot.consensusOf w a b = SimpleBot.consensusOf 0 a b) ∧
    SimpleBot.consensusOf 1 1 0 = SimpleBot.SConsensus.BUY ∧
    SimpleBot.consensusOf 1 (-1) 0 = SimpleBot.SConsensus.NEUTRAL := by
  have hboth : ∀ a b c : ℚ, 2 ≤ [a, b, c].count (-1) → ¬2 ≤ [a, b, c].count 1 := by
    intro a b c h hc
    have := count_one_add_count_neg_one_le [a, b, c]
    simp only [List.length] at this
    omega
  refine ⟨?_, ?_, ?_, ?_, by decide, by decide⟩
  · intro a b c
    unfold SimpleBot.consensusOf
    dsimp only
    split_ifs with h1 h2 <;> simp_all
  · intro a b c
    unfold SimpleBot.consensusOf
    dsimp only
    split_ifs with h1 h2
    · constructor
      · intro hx
        simp at hx
      · intro hx
        exact absurd h1 (hboth a b c hx)
    · simp [h2]
    · simp [h2]
  · intro a b c
    unfold SimpleBot.consensusOf
    dsimp only
    split_ifs with h1 h2 <;> simp_all
  · intro a b w hw
    have hw1 : ¬(1 : ℚ) = w := by rcases hw with h | h <;> rw [h] <;> norm_num
    have hw2 : ¬(-1 : ℚ) = w := by rcases hw with h | h <;> rw [h] <;> norm_num
    refine ⟨?_, ?_, ?_⟩ <;>
      simp [SimpleBot.consensusOf, List.count_cons, hw1, hw2]

/-- Witness for C2: a weak reading of 1/2 in the third slot does not change
the consensus relative to a neutral reading. -/
theorem consensus_majority_rule_witness :
    SimpleBot.consensusOf 1 1 (1/2) = SimpleBot.consensusOf 1 1 0 :=
  (consensus_majority_rule.2.2.2.1 1 1 (1/2) (Or.inl rfl)).1

/-- C3: each indicator of src/simple_bot.py returns the neutral value 0 on a
price series shorter than its minimum lookback: the Supertrend with fewer
than period candles, the MACD with fewer than slow closes, the RSI with at
most period closes.  The embedded functions are total, so no exception can
be raised on these inputs. -/
theorem indicators_insufficient_data_neutral :
    (∀ (data : SimpleBot.Klines) (period : ℕ) (multiplier : ℚ),
      data.closes.length < period →
      SimpleBot.calculate_supertrend_simple data period multiplier = 0) ∧
    (∀ (data : SimpleBot.Klines) (fast slow signal : ℕ),
      data.closes.length < slow →
      SimpleBot.calculate_macd_simple data fast slow signal = 0) ∧
    (∀ (data : SimpleBot.Klines) (period : ℕ),
      data.closes.length ≤ period →
      SimpleBot.calculate_rsi_simple data period = 0) := by
  refine ⟨?_, ?_, ?_⟩
  · intro data period multiplier h
    have hlen : (pyTail (2 * period) data.closes).length < period := by
      unfold pyTail
      split_ifs with h0
      · exact h
      · rw [List.length_drop]
        omega
    unfold SimpleBot.calculate_supertrend_simple
    dsimp only
    rw [if_pos hlen]
  · intro data fast slow signal h
    unfold SimpleBot.calculate_macd_simple
    dsimp only
    rw [if_pos h]
  · intro data period h
    unfold SimpleBot.calculate_rsi_simple
    dsimp only
    rw [if_pos h]

/-- Witness for C3: a two-candle series is below every default lookback and
all three indicators return 0 on it. -/
theorem indicators_insufficient_data_neutral_witness :
    SimpleBot.calculate_supertrend_simple ⟨[5, 6], [5, 6], [5, 6]⟩ 10 3 = 0 ∧
    SimpleBot.calculate_macd_simple ⟨[5, 6], [5, 6], [5, 6]⟩ 12 26 9 = 0 ∧
    SimpleBot.calculate_rsi_simple ⟨[5, 6], [5, 6], [5, 6]⟩ 14 = 0 :=
  ⟨indicators_insufficient_data_neutral.1 ⟨[5, 6], [5, 6], [5, 6]⟩ 10 3 (by decide),
   indicators_insufficient_data_neutral.2.1 ⟨[5, 6], [5, 6], [5, 6]⟩ 12 26 9 (by decide),
   indicators_insufficient_data_neutral.2.2 ⟨[5, 6], [5, 6], [5, 6]⟩ 14 (by decide)⟩

section RsiLemmas

/-- Entries of the pandas gain series are nonnegative. -/
theorem pandasGains_nonneg (closes : List ℚ) :
    ∀ x ∈ SolanaBot.pandasGains closes, 0 ≤ x := by
  intro x hx
  unfold SolanaBot.pandasGains at hx
  cases closes with
  | nil => simp at hx
  | cons c rest =>
    simp at hx
    rcases hx with h | ⟨d, _, h⟩
    · rw [h]
    · rw [← h]
      split_ifs with h0
      · exact le_of_lt h0
      · exact le_refl 0

/-- Entries of the pandas loss series are nonnegative. -/
theorem pandasLosses_nonneg (closes : List ℚ) :
    ∀ x ∈ SolanaBot.pandasLosses closes, 0 ≤ x := by
  intro x hx
  unfold SolanaBot.pandasLosses at hx
  cases closes with
  | nil => simp at hx
  | cons c rest =>
    simp at hx
    rcases hx with h | ⟨d, _, h⟩
    · rw [h]
    · rw [← h]
      split_ifs with h0
      · linarith
      · exact le_refl 0

/-- The gain and loss series have the same length as the close series. -/
theorem pandasGains_length (closes : List ℚ) :
    (SolanaBot.pandasGains closes).length = closes.length := by
  unfold SolanaBot.pandasGains
  cases closes with
  | nil => rfl
  | cons c rest => simp [diffs]

/-- The loss series has the same length as the close series. -/
theorem pandasLosses_length (closes : List ℚ) :
    (SolanaBot.pandasLosses closes).length = closes.length := by
  unfold SolanaBot.pandasLosses
  cases closes with
  | nil => rfl
  | cons c rest => simp [diffs]

/-- A defined rolling mean of a nonnegative series is nonnegative. -/
theorem rollingMeanLast_nonneg {l : List ℚ} {p : ℕ} {m : ℚ}
    (hl : ∀ x ∈ l, 0 ≤ x) (hm : SolanaBot.rollingMeanLast l p = some m) : 0 ≤ m := by
  unfold SolanaBot.rollingMeanLast at hm
  split_ifs at hm with h
  simp only [Option.some.injEq] at hm
  rw [← hm]
  apply div_nonneg
  · apply List.sum_nonneg
    intro x hx
    exact hl x (List.mem_of_mem_drop hx)
  · positivity

end RsiLemmas

/-- C4: for the RSI computation of src/solana_bot.py, a window whose losses
are all zero (only gains) with at least one positive gain yields the RSI
value exactly 100, and every RSI value the computation yields lies between
0 and 100 inclusive. -/
theorem rsi_all_gains_hundred_and_bounded :
    (∀ (closes : List ℚ) (period : ℕ) (oversold overbought : ℚ),
      1 ≤ period →
      period ≤ (SolanaBot.pandasLosses closes).length →
      (∀ x ∈ (SolanaBot.pandasLosses closes).drop
          ((SolanaBot.pandasLosses closes).length - period), x = 0) →
      (∃ x ∈ (SolanaBot.pandasGains closes).drop
          ((SolanaBot.pandasGains closes).length - period), 0 < x) →
      (SolanaBot.calculate_rsi closes period oversold overbought).2 = some 100) ∧
    (∀ (closes : List ℚ) (period : ℕ) (oversold overbought : ℚ) (v : ℚ),
      (SolanaBot.calculate_rsi closes period oversold overbought).2 = some v →
      0 ≤ v ∧ v ≤ 100) := by
  constructor
  · intro closes period oversold overbought hp hlen hzero hpos
    have hne : ¬closes = [] := by
      intro h
      rw [h] at hlen
      simp [SolanaBot.pandasLosses] at hlen
      omega
    have hcond : ¬(closes = [] ∨ period = 0) := by
      push_neg
      exact ⟨hne, by omega⟩
    unfold SolanaBot.calculate_rsi
    rw [if_neg hcond]
    dsimp only
    have hgl : (SolanaBot.pandasGains closes).length = closes.length := pandasGains_length closes
    have hll : (SolanaBot.pandasLosses closes).length = closes.length := pandasLosses_length closes
    have hmeanl : SolanaBot.rollingMeanLast (SolanaBot.pandasLosses closes) period
        = some 0 := by
      unfold SolanaBot.rollingMeanLast
      rw [if_neg (by push_neg; exact ⟨by omega, by omega⟩)]
      rw [List.sum_eq_zero hzero]
      simp
    have hmeang : ∃ ag, SolanaBot.rollingMeanLast (SolanaBot.pandasGains closes) period
        = some ag ∧ 0 < ag := by
      refine ⟨((SolanaBot.pandasGains closes).drop
          ((SolanaBot.pandasGains closes).length - period)).sum / period, ?_, ?_⟩
      · unfold SolanaBot.rollingMeanLast
        rw [if_neg (by push_neg; exact ⟨by omega, by omega⟩)]
      · obtain ⟨x, hx, hx0⟩ := hpos
        have hxsum : x ≤ ((SolanaBot.pandasGains closes).drop
            ((SolanaBot.pandasGains closes).length - period)).sum := by
          apply List.single_le_sum
          · intro y hy
            exact pandasGains_nonneg closes y (List.mem_of_mem_drop hy)
          · exact hx
        have hsum : 0 < ((SolanaBot.pandasGains closes).drop
            ((SolanaBot.pandasGains closes).length - period)).sum := lt_of_lt_of_le hx0 hxsum
        apply div_pos hsum
        have : 0 < period := by omega
        exact_mod_cast this
    obtain ⟨ag, hag, hag0⟩ := hmeang
    rw [hag, hmeanl]
    unfold SolanaBot.rsiFromAvgs
    dsimp only
    rw [if_pos rfl, if_neg (by exact ne_of_gt hag0)]
  · intro closes period oversold overbought v hv
    unfold SolanaBot.calculate_rsi at hv
    by_cases hc : closes = [] ∨ period = 0
    · rw [if_pos hc] at hv
      simp at hv
      rw [← hv]
      norm_num
    · rw [if_neg hc] at hv
      dsimp only at hv
      rcases hA : SolanaBot.rollingMeanLast (SolanaBot.pandasGains closes) period with _ | ag
      · rw [hA] at hv
        unfold SolanaBot.rsiFromAvgs at hv
        simp at hv
      · rcases hB : SolanaBot.rollingMeanLast (SolanaBot.pandasLosses closes) period with _ | al
        · rw [hA, hB] at hv
          unfold SolanaBot.rsiFromAvgs at hv
          simp at hv
        · rw [hA, hB] at hv
          have hag : 0 ≤ ag := rollingMeanLast_nonneg (pandasGains_nonneg closes) hA
          have hal : 0 ≤ al := rollingMeanLast_nonneg (pandasLosses_nonneg closes) hB
          unfold SolanaBot.rsiFromAvgs at hv
          dsimp only at hv
          split_ifs at hv with h0 h1
          · simp only [Option.some.injEq] at hv
            subst hv
            norm_num
          · simp only [Option.some.injEq] at hv
            subst hv
            have hal0 : 0 < al := lt_of_le_of_ne hal (Ne.symm h0)
            have hrs : 0 ≤ ag / al := div_nonneg hag (le_of_lt hal0)
            have hden : (0 : ℚ) < 1 + ag / al := by linarith
            have hq1 : 0 < 100 / (1 + ag / al) := div_pos (by norm_num) hden
            have hq2 : 100 / (1 + ag / al) ≤ 100 := div_le_self (by norm_num) (by linarith)
            constructor <;> linarith

/-- Witness for C4: on the strictly rising series [1, 2, 3] with a window of
two, every loss in the window is zero and a gain is positive, and the RSI
value is exactly 100. -/
theorem rsi_all_gains_hundred_and_bounded_witness :
    (SolanaBot.calculate_rsi [1, 2, 3] 2 30 70).2 = some 100 :=
  rsi_all_gains_hundred_and_bounded.1 [1, 2, 3] 2 30 70 (by decide)
    (by with_unfolding_all decide) (by with_unfolding_all decide)
    (by with_unfolding_all decide)

namespace SolanaBot

/-- The rsi-cycle tracking update touches only the cycle flag and the stored
RSI value. -/
theorem rsiCycleUpdate_preserves (cfg : Config) (s : State) (cur : Option ℚ) :
    (rsiCycleUpdate cfg s cur).last_position = s.last_position ∧
    (rsiCycleUpdate cfg s cur).last_buy_price = s.last_buy_price ∧
    (rsiCycleUpdate cfg s cur).trade_history = s.trade_history ∧
    (rsiCycleUpdate cfg s cur).current_sol_balance = s.current_sol_balance ∧
    (rsiCycleUpdate cfg s cur).current_usdt_balance = s.current_usdt_balance := by
  unfold rsiCycleUpdate
  dsimp only
  split_ifs <;> simp

/-- get_trading_signals mutates only the rsi-cycle tracking fields of the
trading state. -/
theorem getTradingSignals_fst_preserves (cfg : Config) (s : State) (df : Option (List ℚ)) :
    ((getTradingSignals cfg s df).1).last_position = s.last_position ∧
    ((getTradingSignals cfg s df).1).last_buy_price = s.last_buy_price ∧
    ((getTradingSignals cfg s df).1).trade_history = s.trade_history ∧
    ((getTradingSignals cfg s df).1).current_sol_balance = s.current_sol_balance ∧
    ((getTradingSignals cfg s df).1).current_usdt_balance = s.current_usdt_balance := by
  unfold getTradingSignals
  cases df with
  | none => simp
  | some closes =>
    dsimp only
    split_ifs with h
    · simp
    · exact rsiCycleUpdate_preserves cfg s _

end SolanaBot

/-- C10: in the trading loop of src/solana_bot.py, when the tick consensus
is RSI_SELL while the position is long with a recorded positive buy price
and the tick price is below that buy price, the RSI_SELL branch takes the
would-sell-at-a-loss exit: the position label, the trade history and the
recorded buy price are left unchanged and no sell is recorded. -/
theorem rsi_sell_skipped_below_buy_price (cfg : SolanaBot.Config) (s : SolanaBot.State)
    (env : SolanaBot.TickEnv) (sig : SolanaBot.Signals) (lbp : ℚ)
    (hsig : (SolanaBot.getTradingSignals cfg s env.df).2 = some sig)
    (hcons : sig.consensus = SolanaBot.Consensus.RSI_SELL)
    (hlong : s.last_position = some Pos.long)
    (hlbp : s.last_buy_price = some lbp)
    (hpos : 0 < lbp)
    (hlt : sig.price < lbp) :
    (SolanaBot.solanaTick cfg s env).last_position = s.last_position ∧
    (SolanaBot.solanaTick cfg s env).trade_history = s.trade_history ∧
    (SolanaBot.solanaTick cfg s env).last_buy_price = s.last_buy_price := by
  have hpres := SolanaBot.getTradingSignals_fst_preserves cfg s env.df
  have hpair : SolanaBot.getTradingSignals cfg s env.df
      = ((SolanaBot.getTradingSignals cfg s env.df).1, some sig) := by
    rw [← hsig]
  have h1 : ((SolanaBot.getTradingSignals cfg s env.df).1).last_position
      = some Pos.long := hpres.1.trans hlong
  have h2 : ((SolanaBot.getTradingSignals cfg s env.df).1).last_buy_price
      = some lbp := hpres.2.1.trans hlbp
  have hprofit : ((sig.price - lbp) / lbp) * 100 < 0 := by
    apply mul_neg_of_neg_of_pos
    · exact div_neg_of_neg_of_pos (by linarith) hpos
    · norm_num
  unfold SolanaBot.solanaTick
  rw [hpair]
  dsimp only
  rw [if_neg (by simp [hcons])]
  rw [if_neg (by simp [hcons])]
  rw [if_pos (by exact ⟨hcons, by simp [h1]⟩)]
  simp only [h2]
  rw [if_pos (show ¬lbp = 0 from ne_of_gt hpos)]
  rw [if_pos hprofit]
  exact ⟨by simp [hpres.1], by simp [hpres.2.2.1], hlbp.symm⟩

/-- Witness for C10: on a concrete 50-candle series with an overbought
crossing, a long position bought at 60 and a tick price of 52, the RSI_SELL
branch leaves position, history and buy price unchanged. -/
theorem rsi_sell_skipped_below_buy_price_witness :
    (SolanaBot.solanaTick {} c10State c10Env).last_position = c10State.last_position ∧
    (SolanaBot.solanaTick {} c10State c10Env).trade_history = c10State.trade_history ∧
    (SolanaBot.solanaTick {} c10State c10Env).last_buy_price = c10State.last_buy_price :=
  rsi_sell_skipped_below_buy_price {} c10State c10Env c10Sig 60
    (by with_unfolding_all decide) (by with_unfolding_all decide) rfl rfl
    (by norm_num) (by norm_num [c10Sig])

/-- C8 (amended): a tick on which signal data is unavailable leaves the
trading state of both loops entirely unchanged; neither trading_loop has an
emergency-exit path, regardless of how many no-data ticks occur. -/
theorem no_data_tick_noop :
    (∀ (cfg : SolanaBot.Config) (s : SolanaBot.State) (env : SolanaBot.TickEnv),
      env.df = none → SolanaBot.solanaTick cfg s env = s) ∧
    (∀ (cfg : SimpleBot.SConfig) (s : SimpleBot.SState) (env : SimpleBot.STickEnv),
      env.data = none → SimpleBot.simpleTick cfg s env = s) := by
  constructor
  · intro cfg s env h
    unfold SolanaBot.solanaTick SolanaBot.getTradingSignals
    rw [h]
  · intro cfg s env h
    unfold SimpleBot.simpleTick
    rw [h]

/-- Witness for C8 (amended): a no-data tick on the default state of the
solana bot returns the state unchanged. -/
theorem no_data_tick_noop_witness :
    SolanaBot.solanaTick {} {} {} = ({} : SolanaBot.State) :=
  no_data_tick_noop.1 {} {} {} rfl

/-- Counterexample for C8: after three consecutive no-data ticks while the
position is long, the loop of src/solana_bot.py has executed no emergency
exit: the position is still long (not flat) and the trade history records
no sell. -/
theorem three_no_data_ticks_keep_position :
    (SolanaBot.solanaTick {} (SolanaBot.solanaTick {} (SolanaBot.solanaTick {}
        { last_position := some Pos.long, last_buy_price := some 100 } {}) {}) {}).last_position
      = some Pos.long ∧
    (SolanaBot.solanaTick {} (SolanaBot.solanaTick {} (SolanaBot.solanaTick {}
        { last_position := some Pos.long, last_buy_price := some 100 } {}) {}) {}).trade_history
      = [] := by
  with_unfolding_all decide

/-- C1: evaluation of the code at the failing input.  On a BUY tick from a
flat state, the market order response carries no error key but reports
filled = false; execute_buy_order of src/solana_bot.py treats any
error-free response as a success without inspecting the fill, so the loop
transitions the position to long and records the trade, although the fill
was never confirmed. -/
theorem unverified_fill_transitions_position :
    (SolanaBot.solanaTick {} {} c1Env).last_position = some Pos.long ∧
    (SolanaBot.solanaTick {} {} c1Env).trade_history.length = 1 ∧
    c1Env.buyEnv.marketResp.filled = false := by
  with_unfolding_all decide

namespace SolanaBot

/-- Explicit form of the cycle flag after the rsi-cycle tracking update. -/
theorem rsiCycleUpdate_cycle (cfg : Config) (s : State) (cur : Option ℚ) :
    (rsiCycleUpdate cfg s cur).rsi_cycle_complete
      = if cfg.require_rsi_cycle then
          (if s.last_position = some Pos.long then
            (s.rsi_cycle_complete
              || (optGTb s.last_rsi_value cfg.rsi_overbought && optLTb cur cfg.rsi_oversold))
          else true)
        else s.rsi_cycle_complete := by
  unfold rsiCycleUpdate
  dsimp only
  split_ifs <;> simp_all

/-- Explicit form of the stored RSI value after the rsi-cycle tracking
update. -/
theorem rsiCycleUpdate_lrv (cfg : Config) (s : State) (cur : Option ℚ) :
    (rsiCycleUpdate cfg s cur).last_rsi_value
      = if cfg.require_rsi_cycle then cur else s.last_rsi_value := by
  unfold rsiCycleUpdate
  dsimp only
  split_ifs <;> simp

/-- With a sane configuration (oversold at most overbought), applying the
rsi-cycle tracking update twice with the same current RSI value yields the
same cycle flag as applying it once: the second application can never fire
the completion condition, because that would need a value both above
overbought and below oversold. -/
theorem rsiCycleUpdate_cycle_stable (cfg : Config) (s : State) (cur : Option ℚ)
    (hcfg : cfg.rsi_oversold ≤ cfg.rsi_overbought) :
    (rsiCycleUpdate cfg (rsiCycleUpdate cfg s cur) cur).rsi_cycle_complete
      = (rsiCycleUpdate cfg s cur).rsi_cycle_complete := by
  have hkey : (optGTb cur cfg.rsi_overbought && optLTb cur cfg.rsi_oversold) = false := by
    cases cur with
    | none => rfl
    | some v =>
      simp only [optGTb, optLTb, Bool.and_eq_false_iff, decide_eq_false_iff_not, not_lt]
      by_cases h : cfg.rsi_overbought < v
      · right
        linarith
      · left
        simpa using h
  rw [rsiCycleUpdate_cycle cfg (rsiCycleUpdate cfg s cur) cur]
  rw [(rsiCycleUpdate_preserves cfg s cur).1]
  by_cases hreq : cfg.require_rsi_cycle
  · rw [if_pos hreq]
    by_cases hpos : s.last_position = some Pos.long
    · rw [if_pos hpos]
      rw [rsiCycleUpdate_lrv cfg s cur, if_pos hreq, hkey]
      simp
    · rw [if_neg hpos]
      rw [rsiCycleUpdate_cycle cfg s cur, if_pos hreq, if_neg hpos]
  · rw [if_neg hreq]

/-- The profit block depends on the state only through the position label
and the recorded buy price. -/
theorem profitInfo_congr (cfg : Config) {s t : State} (price : ℚ)
    (hp : s.last_position = t.last_position)
    (hb : s.last_buy_price = t.last_buy_price) :
    profitInfo cfg s price = profitInfo cfg t price := by
  unfold profitInfo
  rw [hp, hb]

end SolanaBot

/-- C9 (amended): for a configuration with oversold at most overbought,
running get_trading_signals of src/solana_bot.py twice in succession on the
same input data yields identical signals, including the consensus, even
though the first run mutates the rsi-cycle tracking fields of the trading
state; the consensus computation of src/simple_bot.py is a pure function of
the candle data. -/
theorem consensus_idempotent_for_identical_input (cfg : SolanaBot.Config)
    (s : SolanaBot.State) (df : Option (List ℚ))
    (hcfg : cfg.rsi_oversold ≤ cfg.rsi_overbought) :
    (SolanaBot.getTradingSignals cfg ((SolanaBot.getTradingSignals cfg s df).1) df).2
      = (SolanaBot.getTradingSignals cfg s df).2 := by
  cases df with
  | none => rfl
  | some closes =>
    by_cases hlen : closes.length < 50
    · simp [SolanaBot.getTradingSignals, hlen]
    · unfold SolanaBot.getTradingSignals
      dsimp only
      rw [if_neg hlen, if_neg hlen]
      dsimp only
      have hpres := SolanaBot.rsiCycleUpdate_preserves cfg
        (SolanaBot.rsiCycleUpdate cfg s
          (SolanaBot.calculate_rsi closes cfg.rsi_period cfg.rsi_oversold cfg.rsi_overbought).2)
        (SolanaBot.calculate_rsi closes cfg.rsi_period cfg.rsi_oversold cfg.rsi_overbought).2
      rw [SolanaBot.profitInfo_congr cfg (closes.getLast?.getD 0) hpres.1 hpres.2.1]
      rw [SolanaBot.rsiCycleUpdate_cycle_stable cfg s _ hcfg]

/-- Witness for C9 (amended): with the default configuration, the second
run of get_trading_signals on the same data yields the same signals as the
first. -/
theorem consensus_idempotent_for_identical_input_witness :
    (SolanaBot.getTradingSignals {} ((SolanaBot.getTradingSignals {} c10State c10Env.df).1)
        c10Env.df).2
      = (SolanaBot.getTradingSignals {} c10State c10Env.df).2 :=
  consensus_idempotent_for_identical_input {} c10State c10Env.df (by norm_num)

/-- Counterexample for C9: get_trading_signals of src/solana_bot.py is not
free of side effects on persistent state: on a strictly rising 50-candle
series it overwrites the stored last RSI value (50 before, 100 after), a
mutation of the process-lifetime trading state. -/
theorem get_trading_signals_mutates_state :
    ((SolanaBot.getTradingSignals {} {} (some c9Closes)).1).last_rsi_value = some 100 ∧
    ({} : SolanaBot.State).last_rsi_value = some 50 := by
  with_unfolding_all decide

/-- Counterexample for C5: execute_buy_order of src/solana_bot.py accepts a
computed buy of 0.05 SOL at price 100 (notional 5 USDT), although that
quantity is below the 0.1 SOL lot floor and the notional is below the 15
USDT floor: the call succeeds and places an order instead of rejecting. -/
theorem solana_buy_accepts_below_min_lot_and_notional :
    ((SolanaBot.executeBuyOrder {} {}
        { usdt_bal := 10, ticker_price := some 100,
          marketResp := { hasError := false, filled := true } }).res).isSome = true ∧
    ((SolanaBot.executeBuyOrder {} {}
        { usdt_bal := 10, ticker_price := some 100,
          marketResp := { hasError := false, filled := true } }).orders).length = 1 ∧
    ((10 : ℚ) * (50 / 100) / 100 < 1/10) ∧
    ((10 : ℚ) * (50 / 100) / 100) * 100 < 15 := by
  with_unfolding_all decide

/-- C5 (amended): the executor of src/simple_bot.py rejects, placing no
order, every computed buy whose quantity is below the 0.1 SOL lot floor or
whose notional is below 15 USDT, and every sell below the same floors; the
executor of src/solana_bot.py enforces only a 0.01 SOL floor on the rounded
quantity and no notional floor. -/
theorem simple_executor_rejects_below_minimums (cfg : SimpleBot.SConfig)
    (envb : SimpleBot.SBuyEnv) (envs : SimpleBot.SSellEnv) (p ps : ℚ)
    (hb : envb.ticker_price = some p)
    (hq : envb.usdt_bal * (cfg.trade_percentage / 100) / p < 1/10 ∨
          (envb.usdt_bal * (cfg.trade_percentage / 100) / p) * p < 15)
    (hs : envs.ticker_price = some ps)
    (hq2 : envs.sol_bal < 1/10 ∨ envs.sol_bal * ps < 15) :
    SimpleBot.simpleExecuteBuy cfg envb = (false, []) ∧
    SimpleBot.simpleExecuteSell cfg envs = (false, []) := by
  constructor
  · unfold SimpleBot.simpleExecuteBuy
    rw [hb]
    dsimp only
    by_cases h0 : envb.usdt_bal ≤ 0
    · rw [if_pos h0]
    · rw [if_neg h0]
      by_cases hp0 : p = 0
      · rw [if_pos hp0]
      · rw [if_neg hp0]
        by_cases hlot : envb.usdt_bal * (cfg.trade_percentage / 100) / p < 1/10
        · rw [if_pos hlot]
        · rw [if_neg hlot]
          have hnot : envb.usdt_bal * (cfg.trade_percentage / 100) / p * p < 15 := by
            rcases hq with h | h
            · exact absurd h hlot
            · exact h
          rw [if_pos hnot]
  · unfold SimpleBot.simpleExecuteSell
    rw [hs]
    dsimp only
    by_cases h0 : envs.sol_bal ≤ 0
    · rw [if_pos h0]
    · rw [if_neg h0]
      by_cases hlot : envs.sol_bal < 1/10
      · rw [if_pos hlot]
      · rw [if_neg hlot]
        have hnot : envs.sol_bal * ps < 15 := by
          rcases hq2 with h | h
          · exact absurd h hlot
          · exact h
        rw [if_pos hnot]

/-- Witness for C5 (amended): a buy sized at 0.005 SOL and a sell of 0.05
SOL are both rejected with no order placed. -/
theorem simple_executor_rejects_below_minimums_witness :
    SimpleBot.simpleExecuteBuy {} { usdt_bal := 1, ticker_price := some 100 } = (false, []) ∧
    SimpleBot.simpleExecuteSell {} { sol_bal := 1/20, ticker_price := some 100 } = (false, []) :=
  simple_executor_rejects_below_minimums {} { usdt_bal := 1, ticker_price := some 100 }
    { sol_bal := 1/20, ticker_price := some 100 } 100 100 rfl (Or.inl (by norm_num)) rfl
    (Or.inl (by norm_num))

/-- Counterexample for C7: execute_buy_order of src/solana_bot.py submits a
quantity obtained with round-half-to-even at 4 decimals, not a floor: with
a computed quantity of 0.12346 SOL the submitted quantity is 0.1235 SOL,
which is strictly greater than the computed quantity. -/
theorem solana_buy_quantity_rounds_up :
    (((SolanaBot.executeBuyOrder {} {}
        { usdt_bal := 24692/1000, ticker_price := some 100,
          marketResp := { hasError := false, filled := true } }).orders).head?).map
        (fun o => o.quantity) = some (1235/10000) ∧
    (24692 : ℚ)/1000 * (50/100) / 100 < 1235/10000 := by
  with_unfolding_all decide

section RoundingLemmas

/-- Round-half-to-even moves a value by at most one half. -/
theorem rhe_sub_le (y : ℚ) : |(rhe y : ℚ) - y| ≤ 1/2 := by
  have h1 : ((Int.floor y : ℤ) : ℚ) ≤ y := Int.floor_le y
  have h2 : y < Int.floor y + 1 := Int.lt_floor_add_one y
  unfold rhe
  dsimp only
  split_ifs with ha hb hc <;> rw [abs_le] <;> constructor <;> push_cast <;> linarith

/-- Rounding half to even at d decimals moves a value by at most half of
the last decimal place. -/
theorem pyRound_sub_le (x : ℚ) (d : ℕ) : |pyRound x d - x| ≤ 1 / (2 * 10 ^ d) := by
  have hpow : (0:ℚ) < 10 ^ d := by positivity
  have hrepr : pyRound x d - x = ((rhe (x * 10 ^ d) : ℚ) - x * 10 ^ d) / 10 ^ d := by
    unfold pyRound
    field_simp
    ring
  rw [hrepr, abs_div, abs_of_pos hpow]
  have h := rhe_sub_le (x * 10 ^ d)
  calc |(rhe (x * 10 ^ d) : ℚ) - x * 10 ^ d| / 10 ^ d
      ≤ (1/2) / 10 ^ d := by gcongr
    _ = 1 / (2 * 10 ^ d) := by ring

/-- Every order request built by the sell path of src/app.py carries the
balance floored to the 0.1 lot granularity as its quantity. -/
theorem appExecuteSell_orders_quantity (env : AppBot.ASellEnv) :
    ∀ o ∈ (AppBot.appExecuteSell env).2,
      o.quantity = ((Int.floor (env.sol_bal * 10) : ℤ) : ℚ) / 10 := by
  intro o ho
  unfold AppBot.appExecuteSell at ho
  dsimp only at ho
  rcases hp : env.price with _ | p <;> rw [hp] at ho <;> dsimp only at ho <;>
    split_ifs at ho <;> simp at ho <;>
    first
      | (rw [ho])
      | (rcases ho with h | h <;> rw [h])

end RoundingLemmas

/-- C7 (amended): the sell path of src/app.py floors the base quantity to
the 0.1 lot granularity, so every submitted quantity is the floored balance
and never exceeds the available balance; the buy paths of src/solana_bot.py
and src/simple_bot.py instead round to 4 decimals half to even, which can
move the submitted quantity above the computed one by up to half of the
last decimal place (1/20000). -/
theorem app_sell_quantity_floored (env : AppBot.ASellEnv) (h0 : 0 ≤ env.sol_bal) :
    (∀ o ∈ (AppBot.appExecuteSell env).2, o.quantity ≤ env.sol_bal) ∧
    (∀ o ∈ (AppBot.appExecuteSell env).2,
        o.quantity = ((Int.floor (env.sol_bal * 10) : ℤ) : ℚ) / 10) ∧
    (∀ x : ℚ, |pyRound x 4 - x| ≤ 1/20000) := by
  have hfloor : ((Int.floor (env.sol_bal * 10) : ℤ) : ℚ) / 10 ≤ env.sol_bal := by
    rw [div_le_iff₀ (by norm_num : (0:ℚ) < 10)]
    exact Int.floor_le (env.sol_bal * 10)
  refine ⟨?_, appExecuteSell_orders_quantity env, ?_⟩
  · intro o ho
    rw [appExecuteSell_orders_quantity env o ho]
    exact hfloor
  · intro x
    have h := pyRound_sub_le x 4
    norm_num at h
    exact h

/-- Witness for C7 (amended): with a balance of 0.25 SOL the sell path of
src/app.py submits exactly 0.2 SOL, at most the balance. -/
theorem app_sell_quantity_floored_witness :
    OrderReq.quantity ⟨Side.sell, OType.market, 1/5, none⟩ ≤ ((1/4 : ℚ)) :=
  (app_sell_quantity_floored
      { sol_bal := 1/4, amount := 1/5, price := some 100,
        marketResp := { hasError := false, filled := true } } (by norm_num)).1
    ⟨Side.sell, OType.market, 1/5, none⟩ (by with_unfolding_all decide)

namespace SolanaBot

/-- Shape of the order trace of the buy path of src/solana_bot.py: no order
on a rejection, a single MARKET buy when the market attempt carries no
error, and a MARKET buy followed by one LIMIT buy at 0.5 percent above the
fetched price when the market attempt carries an error. -/
theorem executeBuyOrder_orders_chr (cfg : Config) (s : State) (env : BuyEnv) :
    (executeBuyOrder cfg s env).orders = [] ∨
    (∃ q, (env.marketResp.hasError = false ∧
            (executeBuyOrder cfg s env).orders = [⟨Side.buy, OType.market, q, none⟩]) ∨
          (env.marketResp.hasError = true ∧ ∃ p, env.ticker_price = some p ∧
            (executeBuyOrder cfg s env).orders
              = [⟨Side.buy, OType.market, q, none⟩,
                 ⟨Side.buy, OType.limit, q, some (pyRound (p * (1005/1000)) 2)⟩])) := by
  unfold executeBuyOrder
  rcases hp : env.ticker_price with _ | p
  · left
    rfl
  · dsimp only
    split_ifs <;>
      first
        | (left; rfl)
        | (right; exact ⟨_, Or.inl ⟨by assumption, rfl⟩⟩)
        | (right; exact ⟨_, Or.inr ⟨by simp_all, p, rfl, rfl⟩⟩)

/-- Shape of the order trace of the sell path of src/solana_bot.py: no
order on a rejection, a single MARKET sell on an error-free market
attempt, and a MARKET sell followed by one LIMIT sell at 0.5 percent below
the fetched price otherwise. -/
theorem executeSellOrder_orders_chr (cfg : Config) (s : State) (env : SellEnv) :
    (executeSellOrder cfg s env).orders = [] ∨
    (∃ q, (env.marketResp.hasError = false ∧
            (executeSellOrder cfg s env).orders = [⟨Side.sell, OType.market, q, none⟩]) ∨
          (env.marketResp.hasError = true ∧ ∃ p, env.ticker_price = some p ∧
            (executeSellOrder cfg s env).orders
              = [⟨Side.sell, OType.market, q, none⟩,
                 ⟨Side.sell, OType.limit, q, some (pyRound (p * (995/1000)) 2)⟩])) := by
  unfold executeSellOrder
  rcases hp : env.ticker_price with _ | p
  · dsimp only
    split_ifs <;> (left; rfl)
  · dsimp only
    split_ifs <;>
      first
        | (left; rfl)
        | (right; exact ⟨_, Or.inl ⟨by assumption, rfl⟩⟩)
        | (right; exact ⟨_, Or.inr ⟨by simp_all, p, rfl, rfl⟩⟩)

/-- The first order the buy path of src/solana_bot.py sends, when any is
sent, is a MARKET buy. -/
theorem executeBuyOrder_head_market (cfg : Config) (s : State) (env : BuyEnv) :
    ∀ o, ((executeBuyOrder cfg s env).orders).head? = some o →
      o.side = Side.buy ∧ o.otype = OType.market := by
  intro o ho
  rcases executeBuyOrder_orders_chr cfg s env with h | ⟨q, ⟨hm, h⟩ | ⟨hm, p, hp2, h⟩⟩
  · rw [h] at ho
    exact absurd ho (by simp)
  · rw [h, List.head?_cons] at ho
    injection ho with ho
    subst ho
    exact ⟨rfl, rfl⟩
  · rw [h, List.head?_cons] at ho
    injection ho with ho
    subst ho
    exact ⟨rfl, rfl⟩

/-- The buy path of src/solana_bot.py sends at most two orders, and sends a
second one only after the market attempt returned an error. -/
theorem executeBuyOrder_len (cfg : Config) (s : State) (env : BuyEnv) :
    ((executeBuyOrder cfg s env).orders).length ≤ 2 ∧
    (((executeBuyOrder cfg s env).orders).length = 2 → env.marketResp.hasError = true) := by
  rcases executeBuyOrder_orders_chr cfg s env with h | ⟨q, ⟨hm, h⟩ | ⟨hm, p, hp2, h⟩⟩ <;>
    rw [h] <;> simp_all

/-- When the buy path of src/solana_bot.py sends a second order, it is a
LIMIT buy priced 0.5 percent above the fetched price, rounded to 2
decimals, sent only after the market attempt returned an error. -/
theorem executeBuyOrder_retry_limit (cfg : Config) (s : State) (env : BuyEnv) (p : ℚ) :
    env.ticker_price = some p →
    ∀ o, (((executeBuyOrder cfg s env).orders).drop 1).head? = some o →
      o.side = Side.buy ∧ o.otype = OType.limit ∧
      o.price = some (pyRound (p * (1005/1000)) 2) ∧
      env.marketResp.hasError = true := by
  intro hp o ho
  rcases executeBuyOrder_orders_chr cfg s env with h | ⟨q, ⟨hm, h⟩ | ⟨hm, p2, hp2, h⟩⟩
  · rw [h] at ho
    exact absurd ho (by simp)
  · rw [h] at ho
    exact absurd ho (by simp)
  · rw [h] at ho
    simp only [List.drop_succ_cons, List.drop_zero, List.head?_cons] at ho
    injection ho with ho
    subst ho
    have hpp : p2 = p := by
      rw [hp2] at hp
      injection hp
    subst hpp
    exact ⟨rfl, rfl, rfl, hm⟩

/-- With both order responses carrying an error, the buy path of
src/solana_bot.py reports failure. -/
theorem executeBuyOrder_fail (cfg : Config) (s : State) (env : BuyEnv)
    (hm : env.marketResp.hasError = true) (hl : env.limitResp.hasError = true) :
    (executeBuyOrder cfg s env).res = none := by
  unfold executeBuyOrder
  rcases hp : env.ticker_price with _ | p
  · rfl
  · dsimp only
    split_ifs <;> simp_all

/-- The buy path of src/solana_bot.py never writes the position label. -/
theorem executeBuyOrder_state_pos (cfg : Config) (s : State) (env : BuyEnv) :
    (executeBuyOrder cfg s env).state.last_position = s.last_position := by
  unfold executeBuyOrder
  rcases hp : env.ticker_price with _ | p
  · rfl
  · dsimp only
    split_ifs <;> rfl

/-- The first order the sell path of src/solana_bot.py sends, when any is
sent, is a MARKET sell. -/
theorem executeSellOrder_head_market (cfg : Config) (s : State) (env : SellEnv) :
    ∀ o, ((executeSellOrder cfg s env).orders).head? = some o →
      o.side = Side.sell ∧ o.otype = OType.market := by
  intro o ho
  rcases executeSellOrder_orders_chr cfg s env with h | ⟨q, ⟨hm, h⟩ | ⟨hm, p, hp2, h⟩⟩
  · rw [h] at ho
    exact absurd ho (by simp)
  · rw [h, List.head?_cons] at ho
    injection ho with ho
    subst ho
    exact ⟨rfl, rfl⟩
  · rw [h, List.head?_cons] at ho
    injection ho with ho
    subst ho
    exact ⟨rfl, rfl⟩

/-- The sell path of src/solana_bot.py sends at most two orders, and sends
a second one only after the market attempt returned an error. -/
theorem executeSellOrder_len (cfg : Config) (s : State) (env : SellEnv) :
    ((executeSellOrder cfg s env).orders).length ≤ 2 ∧
    (((executeSellOrder cfg s env).orders).length = 2 → env.marketResp.hasError = true) := by
  rcases executeSellOrder_orders_chr cfg s env with h | ⟨q, ⟨hm, h⟩ | ⟨hm, p, hp2, h⟩⟩ <;>
    rw [h] <;> simp_all

/-- When the sell path of src/solana_bot.py sends a second order, it is a
LIMIT sell priced 0.5 percent below the fetched price, rounded to 2
decimals, sent only after the market attempt returned an error. -/
theorem executeSellOrder_retry_limit (cfg : Config) (s : State) (env : SellEnv) (p : ℚ) :
    env.ticker_price = some p →
    ∀ o, (((executeSellOrder cfg s env).orders).drop 1).head? = some o →
      o.side = Side.sell ∧ o.otype = OType.limit ∧
      o.price = some (pyRound (p * (995/1000)) 2) ∧
      env.marketResp.hasError = true := by
  intro hp o ho
  rcases executeSellOrder_orders_chr cfg s env with h | ⟨q, ⟨hm, h⟩ | ⟨hm, p2, hp2, h⟩⟩
  · rw [h] at ho
    exact absurd ho (by simp)
  · rw [h] at ho
    exact absurd ho (by simp)
  · rw [h] at ho
    simp only [List.drop_succ_cons, List.drop_zero, List.head?_cons] at ho
    injection ho with ho
    subst ho
    have hpp : p2 = p := by
      rw [hp2] at hp
      injection hp
    subst hpp
    exact ⟨rfl, rfl, rfl, hm⟩

/-- With both order responses carrying an error, the sell path of
src/solana_bot.py reports failure. -/
theorem executeSellOrder_fail (cfg : Config) (s : State) (env : SellEnv)
    (hm : env.marketResp.hasError = true) (hl : env.limitResp.hasError = true) :
    (executeSellOrder cfg s env).res = none := by
  unfold executeSellOrder
  rcases hp : env.ticker_price with _ | p <;> dsimp only <;> split_ifs <;> simp_all

/-- The sell path of src/solana_bot.py never writes the position label. -/
theorem executeSellOrder_state_pos (cfg : Config) (s : State) (env : SellEnv) :
    (executeSellOrder cfg s env).state.last_position = s.last_position := by
  unfold executeSellOrder
  rcases hp : env.ticker_price with _ | p <;> dsimp only <;> split_ifs <;> rfl

end SolanaBot

namespace SimpleBot

/-- Shape of the order trace of the buy path of src/simple_bot.py: no order
on a rejection, a single LIMIT buy at 0.5 percent above market when the
limit attempt carries no error, and that LIMIT buy followed by one MARKET
buy when the limit attempt carries an error. -/
theorem simpleExecuteBuy_orders_chr (cfg : SConfig) (env : SBuyEnv) :
    (simpleExecuteBuy cfg env).2 = [] ∨
    (∃ q p, env.ticker_price = some p ∧
      ((env.limitResp.hasError = false ∧
          (simpleExecuteBuy cfg env).2
            = [⟨Side.buy, OType.limit, q, some (pyRound (p * (1005/1000)) 2)⟩]) ∨
       (env.limitResp.hasError = true ∧
          (simpleExecuteBuy cfg env).2
            = [⟨Side.buy, OType.limit, q, some (pyRound (p * (1005/1000)) 2)⟩,
               ⟨Side.buy, OType.market, q, none⟩]))) := by
  unfold simpleExecuteBuy
  rcases hp : env.ticker_price with _ | p
  · dsimp only
    split_ifs <;> (left; rfl)
  · dsimp only
    split_ifs <;>
      first
        | (left; rfl)
        | (right; exact ⟨_, p, rfl, Or.inl ⟨by assumption, rfl⟩⟩)
        | (right; exact ⟨_, p, rfl, Or.inr ⟨by simp_all, rfl⟩⟩)

/-- Shape of the order trace of the sell path of src/simple_bot.py: LIMIT
sell at 0.5 percent below market first, then one MARKET sell retry. -/
theorem simpleExecuteSell_orders_chr (cfg : SConfig) (env : SSellEnv) :
    (simpleExecuteSell cfg env).2 = [] ∨
    (∃ q p, env.ticker_price = some p ∧
      ((env.limitResp.hasError = false ∧
          (simpleExecuteSell cfg env).2
            = [⟨Side.sell, OType.limit, q, some (pyRound (p * (995/1000)) 2)⟩]) ∨
       (env.limitResp.hasError = true ∧
          (simpleExecuteSell cfg env).2
            = [⟨Side.sell, OType.limit, q, some (pyRound (p * (995/1000)) 2)⟩,
               ⟨Side.sell, OType.market, q, none⟩]))) := by
  unfold simpleExecuteSell
  rcases hp : env.ticker_price with _ | p
  · dsimp only
    split_ifs <;> (left; rfl)
  · dsimp only
    split_ifs <;>
      first
        | (left; rfl)
        | (right; exact ⟨_, p, rfl, Or.inl ⟨by assumption, rfl⟩⟩)
        | (right; exact ⟨_, p, rfl, Or.inr ⟨by simp_all, rfl⟩⟩)

/-- The first order the buy path of src/simple_bot.py sends, when any is
sent, is a LIMIT buy priced 0.5 percent above the fetched price. -/
theorem simpleExecuteBuy_head_limit (cfg : SConfig) (env : SBuyEnv) (p : ℚ) :
    env.ticker_price = some p →
    ∀ o, ((simpleExecuteBuy cfg env).2).head? = some o →
      o.side = Side.buy ∧ o.otype = OType.limit ∧
      o.price = some (pyRound (p * (1005/1000)) 2) := by
  intro hp o ho
  rcases simpleExecuteBuy_orders_chr cfg env with h | ⟨q, p2, hp2, ⟨hm, h⟩ | ⟨hm, h⟩⟩
  · rw [h] at ho
    exact absurd ho (by simp)
  · rw [h, List.head?_cons] at ho
    injection ho with ho
    subst ho
    have hpp : p2 = p := by
      rw [hp2] at hp
      injection hp
    subst hpp
    exact ⟨rfl, rfl, rfl⟩
  · rw [h, List.head?_cons] at ho
    injection ho with ho
    subst ho
    have hpp : p2 = p := by
      rw [hp2] at hp
      injection hp
    subst hpp
    exact ⟨rfl, rfl, rfl⟩

/-- When the buy path of src/simple_bot.py sends a second order, it is a
MARKET buy, sent only after the limit attempt returned an error; at most
two orders are sent. -/
theorem simpleExecuteBuy_retry_market (cfg : SConfig) (env : SBuyEnv) :
    ((simpleExecuteBuy cfg env).2).length ≤ 2 ∧
    ∀ o, (((simpleExecuteBuy cfg env).2).drop 1).head? = some o →
      o.otype = OType.market ∧ env.limitResp.hasError = true := by
  rcases simpleExecuteBuy_orders_chr cfg env with h | ⟨q, p2, hp2, ⟨hm, h⟩ | ⟨hm, h⟩⟩ <;>
    rw [h]
  · simp
  · constructor
    · simp
    · intro o ho
      exact absurd ho (by simp)
  · constructor
    · simp
    · intro o ho
      simp only [List.drop_succ_cons, List.drop_zero, List.head?_cons] at ho
      injection ho with ho
      subst ho
      exact ⟨rfl, hm⟩

/-- The first order the sell path of src/simple_bot.py sends, when any is
sent, is a LIMIT sell priced 0.5 percent below the fetched price. -/
theorem simpleExecuteSell_head_limit (cfg : SConfig) (env : SSellEnv) (p : ℚ) :
    env.ticker_price = some p →
    ∀ o, ((simpleExecuteSell cfg env).2).head? = some o →
      o.side = Side.sell ∧ o.otype = OType.limit ∧
      o.price = some (pyRound (p * (995/1000)) 2) := by
  intro hp o ho
  rcases simpleExecuteSell_orders_chr cfg env with h | ⟨q, p2, hp2, ⟨hm, h⟩ | ⟨hm, h⟩⟩
  · rw [h] at ho
    exact absurd ho (by simp)
  · rw [h, List.head?_cons] at ho
    injection ho with ho
    subst ho
    have hpp : p2 = p := by
      rw [hp2] at hp
      injection hp
    subst hpp
    exact ⟨rfl, rfl, rfl⟩
  · rw [h, List.head?_cons] at ho
    injection ho with ho
    subst ho
    have hpp : p2 = p := by
      rw [hp2] at hp
      injection hp
    subst hpp
    exact ⟨rfl, rfl, rfl⟩

/-- When the sell path of src/simple_bot.py sends a second order, it is a
MARKET sell, sent only after the limit attempt returned an error; at most
two orders are sent. -/
theorem simpleExecuteSell_retry_market (cfg : SConfig) (env : SSellEnv) :
    ((simpleExecuteSell cfg env).2).length ≤ 2 ∧
    ∀ o, (((simpleExecuteSell cfg env).2).drop 1).head? = some o →
      o.otype = OType.market ∧ env.limitResp.hasError = true := by
  rcases simpleExecuteSell_orders_chr cfg env with h | ⟨q, p2, hp2, ⟨hm, h⟩ | ⟨hm, h⟩⟩ <;>
    rw [h]
  · simp
  · constructor
    · simp
    · intro o ho
      exact absurd ho (by simp)
  · constructor
    · simp
    · intro o ho
      simp only [List.drop_succ_cons, List.drop_zero, List.head?_cons] at ho
      injection ho with ho
      subst ho
      exact ⟨rfl, hm⟩

/-- With both order responses carrying an error, the buy path of
src/simple_bot.py reports failure. -/
theorem simpleExecuteBuy_fail (cfg : SConfig) (env : SBuyEnv)
    (hl : env.limitResp.hasError = true) (hm : env.marketResp.hasError = true) :
    (simpleExecuteBuy cfg env).1 = false := by
  unfold simpleExecuteBuy
  rcases hp : env.ticker_price with _ | p <;> dsimp only <;> split_ifs <;> simp_all

/-- With both order responses carrying an error, the sell path of
src/simple_bot.py reports failure. -/
theorem simpleExecuteSell_fail (cfg : SConfig) (env : SSellEnv)
    (hl : env.limitResp.hasError = true) (hm : env.marketResp.hasError = true) :
    (simpleExecuteSell cfg env).1 = false := by
  unfold simpleExecuteSell
  rcases hp : env.ticker_price with _ | p <;> dsimp only <;> split_ifs <;> simp_all

end SimpleBot

namespace SolanaBot

/-- When the market attempt and the limit retry of both execute paths fail,
a tick of trading_loop of src/solana_bot.py leaves the position label
unchanged. -/
theorem solanaTick_pos_unchanged_on_fail (cfg : Config) (s : State) (env : TickEnv)
    (h1 : env.buyEnv.marketResp.hasError = true) (h2 : env.buyEnv.limitResp.hasError = true)
    (h3 : env.sellEnv.marketResp.hasError = true) (h4 : env.sellEnv.limitResp.hasError = true) :
    (solanaTick cfg s env).last_position = s.last_position := by
  have hs1 := (getTradingSignals_fst_preserves cfg s env.df).1
  unfold solanaTick
  rcases hg : getTradingSignals cfg s env.df with ⟨s1, sigo⟩
  rw [hg] at hs1
  dsimp only at hs1
  cases sigo with
  | none => exact hs1
  | some sig =>
    dsimp only
    split_ifs with hb hp
    · rw [executeBuyOrder_fail cfg _ env.buyEnv h1 h2]
      rw [executeBuyOrder_state_pos]
      exact hs1
    · rw [executeSellOrder_fail cfg _ env.sellEnv h3 h4]
      rw [executeSellOrder_state_pos]
      exact hs1
    · rcases hlb : s1.last_buy_price with _ | lbp
      · exact hs1
      · dsimp only
        split_ifs with hz hneg <;>
          first
            | exact hs1
            | (rw [executeSellOrder_fail cfg _ env.sellEnv h3 h4,
                executeSellOrder_state_pos]
               exact hs1)
    · exact hs1

end SolanaBot

namespace SimpleBot

/-- When the first attempt and the retry of both execute paths fail, a tick
of trading_loop of src/simple_bot.py leaves the position label
unchanged. -/
theorem simpleTick_pos_unchanged_on_fail (cfg : SConfig) (s : SState) (env : STickEnv)
    (h1 : env.buyEnv.limitResp.hasError = true) (h2 : env.buyEnv.marketResp.hasError = true)
    (h3 : env.sellEnv.limitResp.hasError = true) (h4 : env.sellEnv.marketResp.hasError = true) :
    (simpleTick cfg s env).last_position = s.last_position := by
  unfold simpleTick
  rcases hd : env.data with _ | data
  · rfl
  · dsimp only
    rw [simpleExecuteBuy_fail cfg env.buyEnv h1 h2,
        simpleExecuteSell_fail cfg env.sellEnv h3 h4]
    split_ifs <;> first
      | rfl
      | simp_all

end SimpleBot

/-- Counterexample for C6: execute_buy_order of src/simple_bot.py attempts
a LIMIT order first and retries with a MARKET order, the reverse of the
claimed market-first-then-limit-retry sequence: with both responses
failing, the trace of sent orders is limit first, market second. -/
theorem simple_buy_attempts_limit_before_market :
    ((SimpleBot.simpleExecuteBuy {} { usdt_bal := 100, ticker_price := some 100 }).2).map
      (fun o => o.otype) = [OType.limit, OType.market] := by
  with_unfolding_all decide

/-- C6 (amended): in src/solana_bot.py both execute paths attempt a MARKET
order first and, only when that response carries an error, retry exactly
once with a LIMIT order priced 0.5 percent above market for buys and 0.5
percent below for sells (rounded to 2 decimals); in src/simple_bot.py both
execute paths attempt the LIMIT order with the same 0.5 percent offsets
first and retry exactly once with a MARKET order; in all paths at most two
orders are sent per call, a second failure makes the call report failure,
and a tick whose order attempts all fail leaves the position label
unchanged in both loops. -/
theorem order_retry_discipline :
    (∀ (cfg : SolanaBot.Config) (s : SolanaBot.State) (env : SolanaBot.BuyEnv),
      (∀ o, ((SolanaBot.executeBuyOrder cfg s env).orders).head? = some o →
        o.side = Side.buy ∧ o.otype = OType.market) ∧
      ((SolanaBot.executeBuyOrder cfg s env).orders).length ≤ 2 ∧
      (∀ p, env.ticker_price = some p →
        ∀ o, (((SolanaBot.executeBuyOrder cfg s env).orders).drop 1).head? = some o →
          o.side = Side.buy ∧ o.otype = OType.limit ∧
          o.price = some (pyRound (p * (1005/1000)) 2) ∧
          env.marketResp.hasError = true) ∧
      (env.marketResp.hasError = true → env.limitResp.hasError = true →
        (SolanaBot.executeBuyOrder cfg s env).res = none)) ∧
    (∀ (cfg : SolanaBot.Config) (s : SolanaBot.State) (env : SolanaBot.SellEnv),
      (∀ o, ((SolanaBot.executeSellOrder cfg s env).orders).head? = some o →
        o.side = Side.sell ∧ o.otype = OType.market) ∧
      ((SolanaBot.executeSellOrder cfg s env).orders).length ≤ 2 ∧
      (∀ p, env.ticker_price = some p →
        ∀ o, (((SolanaBot.executeSellOrder cfg s env).orders).drop 1).head? = some o →
          o.side = Side.sell ∧ o.otype = OType.limit ∧
          o.price = some (pyRound (p * (995/1000)) 2) ∧
          env.marketResp.hasError = true) ∧
      (env.marketResp.hasError = true → env.limitResp.hasError = true →
        (SolanaBot.executeSellOrder cfg s env).res = none)) ∧
    (∀ (cfg : SimpleBot.SConfig) (env : SimpleBot.SBuyEnv),
      (∀ p, env.ticker_price = some p →
        ∀ o, ((SimpleBot.simpleExecuteBuy cfg env).2).head? = some o →
          o.side = Side.buy ∧ o.otype = OType.limit ∧
          o.price = some (pyRound (p * (1005/1000)) 2)) ∧
      ((SimpleBot.simpleExecuteBuy cfg env).2).length ≤ 2 ∧
      (∀ o, (((SimpleBot.simpleExecuteBuy cfg env).2).drop 1).head? = some o →
        o.otype = OType.market ∧ env.limitResp.hasError = true) ∧
      (env.limitResp.hasError = true → env.marketResp.hasError = true →
        (SimpleBot.simpleExecuteBuy cfg env).1 = false)) ∧
    (∀ (cfg : SimpleBot.SConfig) (env : SimpleBot.SSellEnv),
      (∀ p, env.ticker_price = some p →
        ∀ o, ((SimpleBot.simpleExecuteSell cfg env).2).head? = some o →
          o.side = Side.sell ∧ o.otype = OType.limit ∧
          o.price = some (pyRound (p * (995/1000)) 2)) ∧
      ((SimpleBot.simpleExecuteSell cfg env).2).length ≤ 2 ∧
      (∀ o, (((SimpleBot.simpleExecuteSell cfg env).2).drop 1).head? = some o →
        o.otype = OType.market ∧ env.limitResp.hasError = true) ∧
      (env.limitResp.hasError = true → env.marketResp.hasError = true →
        (SimpleBot.simpleExecuteSell cfg env).1 = false)) ∧
    (∀ (cfg : SolanaBot.Config) (s : SolanaBot.State) (env : SolanaBot.TickEnv),
      env.buyEnv.marketResp.hasError = true → env.buyEnv.limitResp.hasError = true →
      env.sellEnv.marketResp.hasError = true → env.sellEnv.limitResp.hasError = true →
      (SolanaBot.solanaTick cfg s env).last_position = s.last_position) ∧
    (∀ (cfg : SimpleBot.SConfig) (s : SimpleBot.SState) (env : SimpleBot.STickEnv),
      env.buyEnv.limitResp.hasError = true → env.buyEnv.marketResp.hasError = true →
      env.sellEnv.limitResp.hasError = true → env.sellEnv.marketResp.hasError = true →
      (SimpleBot.simpleTick cfg s env).last_position = s.last_position) :=
  ⟨fun cfg s env =>
    ⟨SolanaBot.executeBuyOrder_head_market cfg s env,
     (SolanaBot.executeBuyOrder_len cfg s env).1,
     fun p hp => SolanaBot.executeBuyOrder_retry_limit cfg s env p hp,
     fun hm hl => SolanaBot.executeBuyOrder_fail cfg s env hm hl⟩,
   fun cfg s env =>
    ⟨SolanaBot.executeSellOrder_head_market cfg s env,
     (SolanaBot.executeSellOrder_len cfg s env).1,
     fun p hp => SolanaBot.executeSellOrder_retry_limit cfg s env p hp,
     fun hm hl => SolanaBot.executeSellOrder_fail cfg s env hm hl⟩,
   fun cfg env =>
    ⟨fun p hp => SimpleBot.simpleExecuteBuy_head_limit cfg env p hp,
     (SimpleBot.simpleExecuteBuy_retry_market cfg env).1,
     (SimpleBot.simpleExecuteBuy_retry_market cfg env).2,
     fun hl hm => SimpleBot.simpleExecuteBuy_fail cfg env hl hm⟩,
   fun cfg env =>
    ⟨fun p hp => SimpleBot.simpleExecuteSell_head_limit cfg env p hp,
     (SimpleBot.simpleExecuteSell_retry_market cfg env).1,
     (SimpleBot.simpleExecuteSell_retry_market cfg env).2,
     fun hl hm => SimpleBot.simpleExecuteSell_fail cfg env hl hm⟩,
   fun cfg s env h1 h2 h3 h4 =>
     SolanaBot.solanaTick_pos_unchanged_on_fail cfg s env h1 h2 h3 h4,
   fun cfg s env h1 h2 h3 h4 =>
     SimpleBot.simpleTick_pos_unchanged_on_fail cfg s env h1 h2 h3 h4⟩

/-- Witness for C6 (amended): a tick whose order attempts all fail leaves a
long position long. -/
theorem order_retry_discipline_witness :
    (SolanaBot.solanaTick {} { last_position := some Pos.long } {}).last_position
      = ({ last_position := some Pos.long } : SolanaBot.State).last_position :=
  order_retry_discipline.2.2.2.2.1 {} { last_position := some Pos.long } {} rfl rfl rfl rfl
